import Mathlib

/-!
Verification of the adaptive RAG control loop of the BiBorBA repository
(`app/core/graph/adaptive_graph.py` and the node modules under
`app/core/graph/nodes/`), as a shallow embedding in Lean 4.

LLM calls, retrieval backends and exceptions are modelled by oracles:
a grader verdict becomes an explicit argument or an oracle function, a
raised-and-caught exception becomes an explicit `error` / `raised`
constructor.  Everything else (state updates, decision functions, the
graph wiring, iteration counters, fallback flags) follows the Python
source line by line.
-/

namespace BiBorBA

/-- Configuration surface of `app/config.py` (class `Settings`), restricted to
the fields the adaptive graph reads, with the source's default values. -/
structure Settings where
  max_generation_retries : ℕ := 2
  max_transform_retries : ℕ := 2
  max_total_iterations : ℕ := 15
  document_grading_batch_size : ℕ := 4
  document_grading_retry_attempts : ℕ := 2
  document_grading_confidence_threshold : ℚ := 6/10
  hallucination_batch_size : ℕ := 3
  retrieval_k : ℕ := 4
deriving Repr

/-- The loop state of `app/core/graph/utils.py` (`GraphState` TypedDict).
Documents are represented by their `page_content` strings; `model_config`
and `collection_ids` are omitted (no claim mentions them and they do not
influence control flow). -/
structure GraphState where
  question : String
  original_question : String
  generation : String
  documents : List String
  generation_attempts : ℕ
  transform_attempts : ℕ
  total_iterations : ℕ
  max_iterations_reached : Bool
  no_relevant_docs_fallback : Bool
  fallback_type : String
deriving Repr, DecidableEq

/-- Initial state built by `GraphService.execute_query`
(`app/services/graph_service.py`): both question fields set to the user's
question, counters zero, flags false. -/
def initial_state (question : String) : GraphState :=
  { question := question
    original_question := question
    generation := ""
    documents := []
    generation_attempts := 0
    transform_attempts := 0
    total_iterations := 0
    max_iterations_reached := false
    no_relevant_docs_fallback := false
    fallback_type := "" }

/-- Function `format_docs` of `app/core/graph/utils.py`: join document contents with
double newlines. -/
def format_docs (docs : List String) : String :=
  String.intercalate "\n\n" docs

/-- Python's `str.lower()` as used on grader verdicts (ASCII casing),
character by character. -/
def str_lower (s : String) : String :=
  String.mk (s.data.map Char.toLower)

/-! ## Document relevance grader (`nodes/document_grader.py`) -/

/-- Outcome of one `grader.ainvoke` call for a single document, after the
TCP-retry loop of `grade_single_doc`: either a parsed `GradeDocuments`
verdict (`binary_score`, `confidence`, `reasoning`) or an exception that
escaped the retry loop (caught by the surrounding `except` / by
`asyncio.gather(..., return_exceptions=True)`). -/
inductive GradeOutcome
  | success (binary_score : String) (confidence : ℚ) (reasoning : String)
  | error (msg : String)
deriving Repr, DecidableEq

/-- Function `grade_single_doc` of `nodes/document_grader.py`, result restricted to the
`(doc, is_relevant, error)` components the caller consumes.  On a successful
grading call, `is_relevant = (grade == "yes" and confidence >=
confidence_threshold)`; on an exception the document is returned with
`is_relevant = False` and the error attached (the exception is swallowed,
never re-raised to the node's caller). -/
def grade_single_doc (confidence_threshold : ℚ) (doc : String) (outcome : GradeOutcome) :
    String × Bool × Option String :=
  match outcome with
  | .success grade confidence _reasoning =>
      (doc, grade == "yes" && decide (confidence_threshold ≤ confidence), none)
  | .error msg => (doc, false, some msg)

/-- The filtering loop at the end of `grade_documents`
(`nodes/document_grader.py`): keep a document iff its grading result has
`is_relevant` true and `error is None`. -/
def grade_documents_filter (confidence_threshold : ℚ)
    (graded : List (String × GradeOutcome)) : List String :=
  (graded.map fun p => grade_single_doc confidence_threshold p.1 p.2).filterMap
    fun r => if r.2.1 && r.2.2.isNone then some r.1 else none

/-! ## Hallucination grader (`nodes/hallucination_grader.py`) -/

/-- Outcome of one `grader.invoke` on a document batch: a parsed
`GradeHallucinations.binary_score`, or an exception (which the source
catches and answers with `continue`). -/
inductive BatchVerdict
  | score (binary_score : String)
  | raised
deriving Repr, DecidableEq

/-- The batch slicing of `grade_hallucination`: one slice
`documents[batch_start : batch_start + batch_size]` per loop iteration of
`for batch_start in range(0, total, batch_size)` — i.e.
`⌈total / batch_size⌉` slices.  (Python would raise on `batch_size = 0`;
here that case returns no batches and every theorem about it assumes
`0 < batch_size`.) -/
def toBatches (batch_size : ℕ) (docs : List String) : List (List String) :=
  if batch_size = 0 then []
  else (List.range ((docs.length + batch_size - 1) / batch_size)).map
    fun i => (docs.drop (i * batch_size)).take batch_size

/-- The batch loop of `grade_hallucination`: invoke the grader on each batch
in order (`verdict` maps the formatted batch text to the call's outcome);
return grounded at the first `"yes"` score, skip a batch whose call raised,
and count the number of grader invocations made. -/
def grade_hallucination_go (verdict : String → BatchVerdict) :
    List (List String) → Bool × ℕ
  | [] => (false, 0)
  | b :: rest =>
    match verdict (format_docs b) with
    | .raised =>
        let r := grade_hallucination_go verdict rest
        (r.1, r.2 + 1)
    | .score s =>
        if str_lower s == "yes" then (true, 1)
        else
          let r := grade_hallucination_go verdict rest
          (r.1, r.2 + 1)

/-- Function `grade_hallucination` of `nodes/hallucination_grader.py`: empty document
list short-circuits to not-grounded with no grader call; otherwise run the
batch loop.  The second component counts grader invocations (each
`grader.invoke`, including ones that raised). -/
def grade_hallucination (batch_size : ℕ) (verdict : String → BatchVerdict)
    (docs : List String) : Bool × ℕ :=
  if docs.isEmpty then (false, 0)
  else grade_hallucination_go verdict (toBatches batch_size docs)

/-! ## Answer grader (`nodes/answer_grader.py`) -/

/-- Method `AnswerGrader.prepare_input`: the grader chain is invoked with the state's
current `question` (not `original_question`) and the latest `generation`. -/
def AnswerGrader.prepare_input (state : GraphState) : String × String :=
  (state.question, state.generation)

/-! ## Decision functions of `adaptive_graph.py` -/

/-- Function `check_iteration_limits` of `adaptive_graph.py`: true when any of the
three budgets is exhausted. -/
def check_iteration_limits (settings : Settings) (state : GraphState) : Bool :=
  decide (state.generation_attempts ≥ settings.max_generation_retries) ||
  decide (state.transform_attempts ≥ settings.max_transform_retries) ||
  decide (state.total_iterations ≥ settings.max_total_iterations)

/-- Function `decide_to_generate` of `adaptive_graph.py`: route after document
grading, chosen from the filtered document list and `transform_attempts`. -/
def decide_to_generate (settings : Settings) (state : GraphState) : String :=
  if state.documents.isEmpty then
    if state.transform_attempts ≥ settings.max_transform_retries then
      "no_docs_fallback"
    else
      "transform_query"
  else
    "generate"

/-- Which grader chains `grade_generation_v_documents_and_question` invoked:
the hallucination grader runs only when the budget check passes, the answer
grader only additionally when the generation was graded grounded. -/
structure GraderCalls where
  hallucination_called : Bool
  answer_called : Bool
deriving Repr, DecidableEq

/-- Function `grade_generation_v_documents_and_question` of `adaptive_graph.py`.
The two grader verdicts are passed in as the values the grader nodes would
return (`is_grounded`, `addresses_question`); the second component records
which graders were actually invoked on the path taken. -/
def grade_generation_v_documents_and_question (settings : Settings)
    (is_grounded : Bool) (addresses_question : Bool) (state : GraphState) :
    String × GraderCalls :=
  if check_iteration_limits settings state then
    ("max_iterations", ⟨false, false⟩)
  else if is_grounded then
    if addresses_question then
      ("useful", ⟨true, true⟩)
    else if state.transform_attempts ≥ settings.max_transform_retries then
      ("useful", ⟨true, true⟩)
    else
      ("not useful", ⟨true, true⟩)
  else if state.generation_attempts ≥ settings.max_generation_retries then
    ("max_iterations", ⟨true, false⟩)
  else
    ("not supported", ⟨true, false⟩)

/-! ## Node state updates

Each Python node returns a full replacement dict; fields it copies
unchanged are represented by `{ s with ... }`. -/

/-- State update of `retrieve` (`nodes/retriever.py`): store the retrieved
documents (empty on a caught retrieval error), bump `total_iterations`,
reset the fallback flags.  `original_question` is preserved. -/
def retrieve_update (retrieved : List String) (s : GraphState) : GraphState :=
  { s with
    documents := retrieved
    total_iterations := s.total_iterations + 1
    max_iterations_reached := false
    no_relevant_docs_fallback := false
    fallback_type := "" }

/-- State update of `grade_documents` (`nodes/document_grader.py`): replace
`documents` with the filtered list, bump `total_iterations`, reset flags. -/
def grade_documents_update (filtered_docs : List String) (s : GraphState) : GraphState :=
  { s with
    documents := filtered_docs
    total_iterations := s.total_iterations + 1
    max_iterations_reached := false
    no_relevant_docs_fallback := false
    fallback_type := "" }

/-- The arguments of the `rag_chain.invoke` call inside `generate`
(`nodes/generator.py`): context is the formatted document list and the
question is always `original_question`. -/
structure LLMCall where
  context : String
  question : String
deriving Repr, DecidableEq

/-- The LLM call made by `generate`:
`rag_chain.invoke({"context": format_docs(documents), "question": original_question})`. -/
def generate_call (s : GraphState) : LLMCall :=
  ⟨format_docs s.documents, s.original_question⟩

/-- State update of `generate` (`nodes/generator.py`): store the generation,
bump `generation_attempts` and `total_iterations`, reset flags. -/
def generate_update (generation : String) (s : GraphState) : GraphState :=
  { s with
    generation := generation
    generation_attempts := s.generation_attempts + 1
    total_iterations := s.total_iterations + 1
    max_iterations_reached := false
    no_relevant_docs_fallback := false
    fallback_type := "" }

/-- State update of `transform_query` (`nodes/rewriter.py`): replace
`question` with the rewritten question, bump `transform_attempts` and
`total_iterations`, reset flags.  `original_question` is preserved. -/
def transform_query_update (better_question : String) (s : GraphState) : GraphState :=
  { s with
    question := better_question
    transform_attempts := s.transform_attempts + 1
    total_iterations := s.total_iterations + 1
    max_iterations_reached := false
    no_relevant_docs_fallback := false
    fallback_type := "" }

/-- The question handed to the pure-LLM chain inside
`generate_no_docs_fallback` (`adaptive_graph.py`):
`llm_chain.invoke({"question": question})` with `question = state["question"]`,
i.e. the current (possibly rewritten) question. -/
def generate_no_docs_fallback_call (s : GraphState) : String :=
  s.question

/-- State update of `generate_no_docs_fallback` (`adaptive_graph.py`):
documents cleared, `generation_attempts` hard-coded to 1,
`total_iterations` bumped, and BOTH `max_iterations_reached` and
`no_relevant_docs_fallback` set to true with
`fallback_type = "no_relevant_docs"`. -/
def generate_no_docs_fallback_update (generation : String) (s : GraphState) : GraphState :=
  { s with
    documents := []
    generation := generation
    generation_attempts := 1
    total_iterations := s.total_iterations + 1
    max_iterations_reached := true
    no_relevant_docs_fallback := true
    fallback_type := "no_relevant_docs" }

/-- Function `mark_max_iterations` of `adaptive_graph.py` (`create_fallback_node`):
`{**state, max_iterations_reached: True, no_relevant_docs_fallback: False,
fallback_type: "max_iterations"}` — in particular `total_iterations` is NOT
incremented by this node. -/
def mark_max_iterations (s : GraphState) : GraphState :=
  { s with
    max_iterations_reached := true
    no_relevant_docs_fallback := false
    fallback_type := "max_iterations" }

/-- Method `GraphService._get_disclaimer_text` (`app/services/graph_service.py`). -/
def _get_disclaimer_text (final_state : GraphState) : Option String :=
  if final_state.no_relevant_docs_fallback then
    some "Diese Antwort basiert auf allgemeinem Wissen, nicht auf Dokumenten aus der Wissensbasis."
  else if final_state.max_iterations_reached then
    some "Diese Antwort konnte nicht vollständig verifiziert werden."
  else
    none

/-! ## Graph wiring (`create_adaptive_graph`) -/

/-- The nodes of the compiled state graph, plus the `END` terminal. -/
inductive Node
  | retrieve
  | grade_documents
  | generate
  | transform_query
  | no_docs_fallback
  | fallback
  | terminal
deriving Repr, DecidableEq

/-- The conditional-edge mapping attached to `grade_documents` in
`create_adaptive_graph`.  `decide_to_generate` only ever returns one of the
three mapped strings, so the default arm is unreachable (LangGraph would
raise on an unmapped key). -/
def route_from_grade_documents : String → Node
  | "transform_query" => .transform_query
  | "generate" => .generate
  | "no_docs_fallback" => .no_docs_fallback
  | _ => .terminal

/-- The conditional-edge mapping attached to `generate` in
`create_adaptive_graph` (`"useful"` maps to `END`). -/
def route_from_generate : String → Node
  | "not supported" => .generate
  | "useful" => .terminal
  | "not useful" => .transform_query
  | "max_iterations" => .fallback
  | _ => .terminal

/-- Oracles standing in for the LLM and the retrieval backend during one
execution.  Each is indexed by the `total_iterations` value of the state at
node entry — a clock that strictly increases across all LLM-calling nodes —
so arbitrary sequences of grader verdicts are expressible. -/
structure Oracle where
  retrieved : ℕ → List String
  docOutcome : ℕ → String → GradeOutcome
  grounded : ℕ → Bool
  addresses : ℕ → Bool
  rewritten : ℕ → String → String
  generated : ℕ → String
  fallbackGenerated : ℕ → String

/-- A point of the graph execution: the graph state, the node about to run
(or `terminal`), and instrumentation recording the arguments of the last
answer-generating LLM call and of the last answer-grader invocation. -/
structure LoopState where
  g : GraphState
  node : Node
  lastCallQuestion : Option String
  lastAnswerGraderInput : Option (String × String)
deriving Repr, DecidableEq

/-- One step of the compiled graph: execute the current node on `ls.g` and
follow the (conditional) edge out of it, exactly as wired in
`create_adaptive_graph`.  `terminal` is absorbing. -/
def step (settings : Settings) (o : Oracle) (ls : LoopState) : LoopState :=
  match ls.node with
  | .terminal => ls
  | .retrieve =>
      { ls with
        g := retrieve_update (o.retrieved ls.g.total_iterations) ls.g
        node := .grade_documents }
  | .grade_documents =>
      let filtered := grade_documents_filter settings.document_grading_confidence_threshold
        (ls.g.documents.map fun d => (d, o.docOutcome ls.g.total_iterations d))
      let g' := grade_documents_update filtered ls.g
      { ls with
        g := g'
        node := route_from_grade_documents (decide_to_generate settings g') }
  | .generate =>
      let call := generate_call ls.g
      let g' := generate_update (o.generated ls.g.total_iterations) ls.g
      let decision := grade_generation_v_documents_and_question settings
        (o.grounded g'.total_iterations) (o.addresses g'.total_iterations) g'
      { g := g'
        node := route_from_generate decision.1
        lastCallQuestion := some call.question
        lastAnswerGraderInput :=
          if decision.2.answer_called then some (AnswerGrader.prepare_input g')
          else ls.lastAnswerGraderInput }
  | .transform_query =>
      { ls with
        g := transform_query_update
          (o.rewritten ls.g.total_iterations ls.g.question) ls.g
        node := .retrieve }
  | .no_docs_fallback =>
      { ls with
        g := generate_no_docs_fallback_update
          (o.fallbackGenerated ls.g.total_iterations) ls.g
        node := .terminal
        lastCallQuestion := some (generate_no_docs_fallback_call ls.g) }
  | .fallback =>
      { ls with
        g := mark_max_iterations ls.g
        node := .terminal }

/-- Run `n` graph steps (node executions) from `ls`. -/
def run (settings : Settings) (o : Oracle) : ℕ → LoopState → LoopState
  | 0, ls => ls
  | n + 1, ls => run settings o n (step settings o ls)

/-- Entry point: `START → retrieve` with the initial state of
`GraphService.execute_query`. -/
def initLoop (question : String) : LoopState :=
  ⟨initial_state question, .retrieve, none, none⟩

/-! ## Termination measure -/

/-- Weight of each node in the termination measure. -/
def nodeWeight : Node → ℕ
  | .retrieve => 4
  | .grade_documents => 3
  | .generate => 2
  | .transform_query => 1
  | .no_docs_fallback => 1
  | .fallback => 1
  | .terminal => 0

/-- Termination measure for the adaptive loop: decreases on every step whose
successor is not already one step from `END`. -/
def loopMeasure (settings : Settings) (ls : LoopState) : ℕ :=
  5 * (settings.max_transform_retries - ls.g.transform_attempts)
    + (settings.max_generation_retries - ls.g.generation_attempts)
    + nodeWeight ls.node

/-- Invariant: the `transform_query` node is only ever entered with
`transform_attempts` strictly below the budget (both edges into it check
this). -/
def TransformInv (settings : Settings) (ls : LoopState) : Prop :=
  ls.node = Node.transform_query →
    ls.g.transform_attempts < settings.max_transform_retries

/-! ## Concrete oracles and configurations used as witnesses -/

/-- Oracle for runs in which retrieval always comes back empty (the grader
verdicts are then never consulted). -/
def emptyRetrievalOracle : Oracle :=
  { retrieved := fun _ => []
    docOutcome := fun _ _ => .error "unused"
    grounded := fun _ => false
    addresses := fun _ => false
    rewritten := fun _ q => q
    generated := fun _ => ""
    fallbackGenerated := fun _ => "fallback answer" }

/-- Like `emptyRetrievalOracle` but each rewrite appends a marker, so the
rewritten question differs from the original. -/
def rewritingEmptyOracle : Oracle :=
  { emptyRetrievalOracle with rewritten := fun _ q => q ++ "!" }

/-- Oracle for a run that first drops the retrieved document, rewrites the
query to `"rw"`, then keeps the document and produces a grounded, on-topic
answer. -/
def rewriteThenSucceedOracle : Oracle :=
  { retrieved := fun _ => ["doc"]
    docOutcome := fun i _ => if i = 1 then .error "boom" else .success "yes" 1 "ok"
    grounded := fun _ => true
    addresses := fun _ => true
    rewritten := fun _ _ => "rw"
    generated := fun _ => "answer"
    fallbackGenerated := fun _ => "fallback answer" }

/-- Budget configuration family used to refute the
`max_total_iterations + O(1)` bound: a growing transform budget with a
small total-iterations budget. -/
def unboundedTransformSettings (c : ℕ) : Settings :=
  { max_transform_retries := c + 1
    max_total_iterations := 2 * c + 3 }

/-- Default settings except for a confidence threshold of 1, numerically
convenient for concrete executions (the threshold value is irrelevant to the
control-flow properties these runs witness). -/
def settingsThr1 : Settings :=
  { document_grading_confidence_threshold := 1 }

/-- Result of one batch verdict as the `grade_hallucination` loop interprets
it: grounded iff the call succeeded with a `binary_score` whose lowercase
form is `"yes"`. -/
def isYes : BatchVerdict → Bool
  | .score s => str_lower s == "yes"
  | .raised => false

/-- Concrete state used in the C10 analysis: a `generate`-node loop state in
which the generation is about to be graded with `transform_attempts` already
at the (default) transform budget. -/
def c10GraphState : GraphState :=
  { question := "q"
    original_question := "q"
    generation := ""
    documents := ["doc"]
    generation_attempts := 0
    transform_attempts := 2
    total_iterations := 4
    max_iterations_reached := false
    no_relevant_docs_fallback := false
    fallback_type := "" }

/-- Oracle whose hallucination grader answers grounded and whose answer
grader answers does-not-address — the premise of the accept-as-is branch. -/
def groundedNotAddressingOracle : Oracle :=
  { emptyRetrievalOracle with
    retrieved := fun _ => ["doc"]
    grounded := fun _ => true
    addresses := fun _ => false }

/-- The `generate`-node loop state for the C10 analysis. -/
def c10LoopState : LoopState :=
  ⟨c10GraphState, .generate, none, none⟩

/-- The retrieve-node loop state reached after `k` fruitless
retrieve → grade_documents → transform_query cycles under
`emptyRetrievalOracle` (the rewriter returns the question unchanged). -/
def cycleState (q : String) (k : ℕ) : LoopState :=
  ⟨{ question := q
     original_question := q
     generation := ""
     documents := []
     generation_attempts := 0
     transform_attempts := k
     total_iterations := 3 * k
     max_iterations_reached := false
     no_relevant_docs_fallback := false
     fallback_type := "" }, .retrieve, none, none⟩

/-- Seven documents, so that a batch size of 3 yields three batches. -/
def c6Docs : List String := ["d1", "d2", "d3", "d4", "d5", "d6", "d7"]

/-- A grader whose call on the first batch raises, whose call on the second
batch scores grounded, and which would score the third batch as raised were
it ever invoked. -/
def c6Verdict : String → BatchVerdict := fun s =>
  if s == "d4\n\nd5\n\nd6" then .score "yes" else .raised

/-! # Theorems -/

section StepLemmas

variable (settings : Settings) (o : Oracle)

theorem step_retrieve (g : GraphState) (lcq : Option String) (lag : Option (String × String)) :
    step settings o ⟨g, .retrieve, lcq, lag⟩ =
      ⟨retrieve_update (o.retrieved g.total_iterations) g, .grade_documents, lcq, lag⟩ := rfl

theorem step_grade_documents (g : GraphState) (lcq : Option String) (lag : Option (String × String)) :
    step settings o ⟨g, .grade_documents, lcq, lag⟩ =
      let filtered := grade_documents_filter settings.document_grading_confidence_threshold
        (g.documents.map fun d => (d, o.docOutcome g.total_iterations d))
      let g' := grade_documents_update filtered g
      ⟨g', route_from_grade_documents (decide_to_generate settings g'), lcq, lag⟩ := rfl

theorem step_generate (g : GraphState) (lcq : Option String) (lag : Option (String × String)) :
    step settings o ⟨g, .generate, lcq, lag⟩ =
      let g' := generate_update (o.generated g.total_iterations) g
      let decision := grade_generation_v_documents_and_question settings
        (o.grounded g'.total_iterations) (o.addresses g'.total_iterations) g'
      ⟨g', route_from_generate decision.1, some (generate_call g).question,
        if decision.2.answer_called then some (AnswerGrader.prepare_input g') else lag⟩ := rfl

theorem step_transform_query (g : GraphState) (lcq : Option String) (lag : Option (String × String)) :
    step settings o ⟨g, .transform_query, lcq, lag⟩ =
      ⟨transform_query_update (o.rewritten g.total_iterations g.question) g, .retrieve, lcq, lag⟩ := rfl

theorem step_no_docs_fallback (g : GraphState) (lcq : Option String) (lag : Option (String × String)) :
    step settings o ⟨g, .no_docs_fallback, lcq, lag⟩ =
      ⟨generate_no_docs_fallback_update (o.fallbackGenerated g.total_iterations) g, .terminal,
        some (generate_no_docs_fallback_call g), lag⟩ := rfl

theorem step_fallback (g : GraphState) (lcq : Option String) (lag : Option (String × String)) :
    step settings o ⟨g, .fallback, lcq, lag⟩ = ⟨mark_max_iterations g, .terminal, lcq, lag⟩ := rfl

theorem step_of_terminal {ls : LoopState} (h : ls.node = Node.terminal) :
    step settings o ls = ls := by
  obtain ⟨g, node, lcq, lag⟩ := ls
  cases node <;> simp_all [step]

theorem run_of_terminal {ls : LoopState} (h : ls.node = Node.terminal) :
    ∀ n, run settings o n ls = ls := by
  intro n
  induction n with
  | zero => rfl
  | succ n ih => rw [run, step_of_terminal settings o h, ih]

theorem run_add (m n : ℕ) (ls : LoopState) :
    run settings o (m + n) ls = run settings o m (run settings o n ls) := by
  induction n generalizing ls with
  | zero => rfl
  | succ n ih => rw [← Nat.add_assoc, run, run, ih]

theorem run_succ_outer (n : ℕ) (ls : LoopState) :
    run settings o (n + 1) ls = step settings o (run settings o n ls) := by
  rw [Nat.add_comm, run_add]
  rfl

end StepLemmas

section DecisionLemmas

variable {settings : Settings} {s : GraphState}

theorem decide_to_generate_of_nonempty (h : s.documents ≠ []) :
    decide_to_generate settings s = "generate" := by
  simp [decide_to_generate, h]

theorem decide_to_generate_of_empty_lt (hd : s.documents = [])
    (h : s.transform_attempts < settings.max_transform_retries) :
    decide_to_generate settings s = "transform_query" := by
  simp [decide_to_generate, hd, Nat.not_le.mpr h]

theorem decide_to_generate_of_empty_ge (hd : s.documents = [])
    (h : settings.max_transform_retries ≤ s.transform_attempts) :
    decide_to_generate settings s = "no_docs_fallback" := by
  simp [decide_to_generate, hd, h]

theorem check_iteration_limits_eq_false :
    check_iteration_limits settings s = false ↔
      s.generation_attempts < settings.max_generation_retries ∧
      s.transform_attempts < settings.max_transform_retries ∧
      s.total_iterations < settings.max_total_iterations := by
  simp [check_iteration_limits, Nat.lt_iff_add_one_le, Nat.not_le]
  omega

end DecisionLemmas

section RouteLemmas

theorem route_gd_generate : route_from_grade_documents "generate" = Node.generate := rfl

theorem route_gd_transform : route_from_grade_documents "transform_query" = Node.transform_query := rfl

theorem route_gd_no_docs : route_from_grade_documents "no_docs_fallback" = Node.no_docs_fallback := rfl

theorem route_gen_useful : route_from_generate "useful" = Node.terminal := rfl

theorem route_gen_not_useful : route_from_generate "not useful" = Node.transform_query := rfl

theorem route_gen_not_supported : route_from_generate "not supported" = Node.generate := rfl

theorem route_gen_max_iterations : route_from_generate "max_iterations" = Node.fallback := rfl

end RouteLemmas

section Termination

/-- On a step out of a non-terminal node, either the successor is already
terminal or the measure strictly decreases while the transform invariant is
preserved. -/
theorem step_descent (settings : Settings) (o : Oracle) (ls : LoopState)
    (hwf : TransformInv settings ls) (hne : ls.node ≠ Node.terminal) :
    (step settings o ls).node = Node.terminal ∨
      (loopMeasure settings (step settings o ls) < loopMeasure settings ls ∧
        TransformInv settings (step settings o ls)) := by
  obtain ⟨g, node, lcq, lag⟩ := ls
  cases node with
  | terminal => exact absurd rfl hne
  | retrieve =>
    refine Or.inr ⟨?_, ?_⟩
    · simp only [step_retrieve, loopMeasure, retrieve_update, nodeWeight]
      omega
    · intro h
      simp [step_retrieve] at h
  | grade_documents =>
    rw [step_grade_documents]
    simp only []
    set filtered := grade_documents_filter settings.document_grading_confidence_threshold
      (g.documents.map fun d => (d, o.docOutcome g.total_iterations d)) with hfiltered
    by_cases hd : filtered = []
    · by_cases hta : settings.max_transform_retries ≤ g.transform_attempts
      · rw [decide_to_generate_of_empty_ge (by simp [grade_documents_update, hd])
          (by simpa [grade_documents_update] using hta), route_gd_no_docs]
        refine Or.inr ⟨?_, ?_⟩
        · simp only [loopMeasure, grade_documents_update, nodeWeight]
          omega
        · intro h
          simp at h
      · rw [decide_to_generate_of_empty_lt (by simp [grade_documents_update, hd])
          (by simp only [grade_documents_update]; omega), route_gd_transform]
        refine Or.inr ⟨?_, ?_⟩
        · simp only [loopMeasure, grade_documents_update, nodeWeight]
          omega
        · intro _
          simp only [grade_documents_update]
          omega
    · rw [decide_to_generate_of_nonempty (by simpa [grade_documents_update] using hd),
        route_gd_generate]
      refine Or.inr ⟨?_, ?_⟩
      · simp only [loopMeasure, grade_documents_update, nodeWeight]
        omega
      · intro h
        simp at h
  | generate =>
    rw [step_generate]
    simp only []
    set g' := generate_update (o.generated g.total_iterations) g with hg'
    by_cases hchk : check_iteration_limits settings g' = true
    · rw [show grade_generation_v_documents_and_question settings
          (o.grounded g'.total_iterations) (o.addresses g'.total_iterations) g' =
            ("max_iterations", ⟨false, false⟩) by
          simp [grade_generation_v_documents_and_question, hchk]]
      rw [route_gen_max_iterations]
      refine Or.inr ⟨?_, ?_⟩
      · simp only [loopMeasure, hg', generate_update, nodeWeight]
        omega
      · intro h
        simp at h
    · have hchk' := check_iteration_limits_eq_false.mp (Bool.eq_false_iff.mpr hchk)
      by_cases hgr : o.grounded g'.total_iterations = true
      · by_cases had : o.addresses g'.total_iterations = true
        · rw [show grade_generation_v_documents_and_question settings
              (o.grounded g'.total_iterations) (o.addresses g'.total_iterations) g' =
                ("useful", ⟨true, true⟩) by
              simp [grade_generation_v_documents_and_question, hchk, hgr, had,
                Bool.eq_false_iff.mpr hchk]]
          rw [route_gen_useful]
          exact Or.inl rfl
        · have hta : g'.transform_attempts < settings.max_transform_retries := hchk'.2.1
          rw [show grade_generation_v_documents_and_question settings
              (o.grounded g'.total_iterations) (o.addresses g'.total_iterations) g' =
                ("not useful", ⟨true, true⟩) by
              simp [grade_generation_v_documents_and_question, hchk, hgr, had,
                Bool.eq_false_iff.mpr hchk, Nat.not_le.mpr hta,
                Bool.eq_false_iff.mpr had]]
          rw [route_gen_not_useful]
          refine Or.inr ⟨?_, ?_⟩
          · simp only [loopMeasure, hg', generate_update, nodeWeight]
            omega
          · intro _
            simp only [hg', generate_update] at hta ⊢
            omega
      · have hga : g'.generation_attempts < settings.max_generation_retries := hchk'.1
        rw [show grade_generation_v_documents_and_question settings
            (o.grounded g'.total_iterations) (o.addresses g'.total_iterations) g' =
              ("not supported", ⟨true, false⟩) by
            simp [grade_generation_v_documents_and_question, hchk,
              Bool.eq_false_iff.mpr hchk, Bool.eq_false_iff.mpr hgr,
              Nat.not_le.mpr hga]]
        rw [route_gen_not_supported]
        refine Or.inr ⟨?_, ?_⟩
        · simp only [hg', generate_update] at hga
          simp only [loopMeasure, hg', generate_update, nodeWeight]
          omega
        · intro h
          simp at h
  | transform_query =>
    have hta : g.transform_attempts < settings.max_transform_retries := hwf rfl
    refine Or.inr ⟨?_, ?_⟩
    · simp only [step_transform_query, loopMeasure, transform_query_update, nodeWeight]
      omega
    · intro h
      simp [step_transform_query] at h
  | no_docs_fallback =>
    exact Or.inl rfl
  | fallback =>
    exact Or.inl rfl

/-- Any loop state satisfying the transform invariant reaches `END` within
`loopMeasure` further node executions. -/
theorem run_reaches_terminal (settings : Settings) (o : Oracle) :
    ∀ (n : ℕ) (ls : LoopState), TransformInv settings ls → loopMeasure settings ls ≤ n →
      (run settings o n ls).node = Node.terminal := by
  intro n
  induction n with
  | zero =>
    intro ls hwf hm
    obtain ⟨g, node, lcq, lag⟩ := ls
    cases node <;> simp only [loopMeasure, nodeWeight] at hm <;>
      first
        | rfl
        | (exfalso; omega)
  | succ n ih =>
    intro ls hwf hm
    by_cases hterm : ls.node = Node.terminal
    · rw [run_of_terminal settings o hterm]
      exact hterm
    · rw [show run settings o (n + 1) ls = run settings o n (step settings o ls) from rfl]
      rcases step_descent settings o ls hwf hterm with h | ⟨hlt, hinv⟩
      · rw [run_of_terminal settings o h]
        exact h
      · exact ih (step settings o ls) hinv (by omega)

end Termination

section NoDocsCycle

/-- Under always-empty retrieval, each retrieve → grade_documents →
transform_query cycle advances `transform_attempts` by one and
`total_iterations` by three, without ever consulting
`max_total_iterations`. -/
theorem cycle_lemma (settings : Settings) (q : String) :
    ∀ k, k ≤ settings.max_transform_retries →
      run settings emptyRetrievalOracle (3 * k) (initLoop q) = cycleState q k := by
  intro k
  induction k with
  | zero => intro _; rfl
  | succ k ih =>
    intro hk
    have e : 3 * (k + 1) = 3 + 3 * k := by ring
    rw [e, run_add, ih (by omega)]
    have s1 : step settings emptyRetrievalOracle (cycleState q k) =
        ⟨{ question := q, original_question := q, generation := "", documents := [],
           generation_attempts := 0, transform_attempts := k, total_iterations := 3 * k + 1,
           max_iterations_reached := false, no_relevant_docs_fallback := false,
           fallback_type := "" }, .grade_documents, none, none⟩ := rfl
    have s2 : step settings emptyRetrievalOracle
        (⟨{ question := q, original_question := q, generation := "", documents := [],
            generation_attempts := 0, transform_attempts := k, total_iterations := 3 * k + 1,
            max_iterations_reached := false, no_relevant_docs_fallback := false,
            fallback_type := "" }, .grade_documents, none, none⟩ : LoopState) =
        ⟨{ question := q, original_question := q, generation := "", documents := [],
           generation_attempts := 0, transform_attempts := k, total_iterations := 3 * k + 1 + 1,
           max_iterations_reached := false, no_relevant_docs_fallback := false,
           fallback_type := "" }, .transform_query, none, none⟩ := by
      rw [step_grade_documents]
      simp only []
      rw [decide_to_generate_of_empty_lt rfl (by simp only [grade_documents_update]; omega),
        route_gd_transform]
      rfl
    have s3 : step settings emptyRetrievalOracle
        (⟨{ question := q, original_question := q, generation := "", documents := [],
            generation_attempts := 0, transform_attempts := k, total_iterations := 3 * k + 1 + 1,
            max_iterations_reached := false, no_relevant_docs_fallback := false,
            fallback_type := "" }, .transform_query, none, none⟩ : LoopState) =
        ⟨{ question := q, original_question := q, generation := "", documents := [],
           generation_attempts := 0, transform_attempts := k + 1,
           total_iterations := 3 * k + 1 + 1 + 1,
           max_iterations_reached := false, no_relevant_docs_fallback := false,
           fallback_type := "" }, .retrieve, none, none⟩ := rfl
    show step settings emptyRetrievalOracle
        (step settings emptyRetrievalOracle
          (step settings emptyRetrievalOracle (cycleState q k))) = cycleState q (k + 1)
    rw [s1, s2, s3]
    simp only [cycleState, LoopState.mk.injEq, GraphState.mk.injEq, eq_self_iff_true,
      and_true, true_and]
    omega

end NoDocsCycle

/-- C1 (amended): for every budget configuration and every oracle (hence
every sequence of grader verdicts), the adaptive loop reaches the terminal
state within `5 * max_transform_retries + max_generation_retries + 4` node
executions — a bound linear in the transform and generation budgets.  The
bound `max_total_iterations + O(1)` claimed by the spec does not hold (see
the counterexample): the retrieve → grade_documents → transform_query cycle
never consults `total_iterations`. -/
theorem C1_termination_linear_bound :
    ∀ (settings : Settings) (o : Oracle) (q : String),
      (run settings o
          (5 * settings.max_transform_retries + settings.max_generation_retries + 4)
          (initLoop q)).node = Node.terminal := by
  intro settings o q
  apply run_reaches_terminal
  · intro h
    simp [initLoop] at h
  · simp only [loopMeasure, initLoop, initial_state, nodeWeight]
    omega

/-- C1 counterexample: there is no constant `c` such that every
configuration and verdict sequence terminates within
`max_total_iterations + c` node executions.  With `max_transform_retries =
c + 1`, `max_total_iterations = 2c + 3` and always-empty retrieval, the
loop is still at the `retrieve` node after `max_total_iterations + c`
executions. -/
theorem C1_counterexample :
    ¬ ∃ c : ℕ, ∀ (settings : Settings) (o : Oracle) (q : String),
        (run settings o (settings.max_total_iterations + c) (initLoop q)).node
          = Node.terminal := by
  rintro ⟨c, h⟩
  have h2 := h (unboundedTransformSettings c) emptyRetrievalOracle "q"
  have e : (unboundedTransformSettings c).max_total_iterations + c = 3 * (c + 1) := by
    simp only [unboundedTransformSettings]
    omega
  rw [e, cycle_lemma (unboundedTransformSettings c) "q" (c + 1)
    (by simp [unboundedTransformSettings])] at h2
  simp [cycleState] at h2

section TerminalFlags

/-- The decision router out of `grade_documents` never leads straight to
`END`. -/
theorem route_decide_ne_terminal (settings : Settings) (s : GraphState) :
    route_from_grade_documents (decide_to_generate settings s) ≠ Node.terminal := by
  unfold decide_to_generate
  split
  · split
    · decide
    · decide
  · decide

/-- Whenever a single step lands on the terminal state, its flags are in one
of the three shapes set by the three edges into `END`. -/
theorem step_terminal_flags (settings : Settings) (o : Oracle) (ls : LoopState)
    (hne : ls.node ≠ Node.terminal) (ht : (step settings o ls).node = Node.terminal) :
    ((step settings o ls).g.fallback_type = "" ∧
      (step settings o ls).g.max_iterations_reached = false ∧
      (step settings o ls).g.no_relevant_docs_fallback = false) ∨
    ((step settings o ls).g.fallback_type = "max_iterations" ∧
      (step settings o ls).g.max_iterations_reached = true ∧
      (step settings o ls).g.no_relevant_docs_fallback = false) ∨
    ((step settings o ls).g.fallback_type = "no_relevant_docs" ∧
      (step settings o ls).g.max_iterations_reached = true ∧
      (step settings o ls).g.no_relevant_docs_fallback = true) := by
  obtain ⟨g, node, lcq, lag⟩ := ls
  cases node with
  | terminal => exact absurd rfl hne
  | retrieve => simp [step_retrieve] at ht
  | grade_documents =>
    rw [step_grade_documents] at ht
    exact absurd ht (route_decide_ne_terminal settings _)
  | generate =>
    refine Or.inl ?_
    rw [step_generate]
    simp [generate_update]
  | transform_query => simp [step_transform_query] at ht
  | no_docs_fallback =>
    refine Or.inr (Or.inr ?_)
    rw [step_no_docs_fallback]
    simp [generate_no_docs_fallback_update]
  | fallback =>
    refine Or.inr (Or.inl ?_)
    rw [step_fallback]
    simp [mark_max_iterations]

end TerminalFlags

/-- C2 (amended): at every terminal state of the adaptive loop the
`fallback_type` tag identifies exactly one of the three outcomes, with the
flag combinations actually written by the code: normal success has
`("", false, false)`, the max-iterations fallback has
`("max_iterations", true, false)`, and the no-docs fallback has
`("no_relevant_docs", true, true)` — i.e. on the no-docs path BOTH boolean
flags are true (refuting the original claim's "never both true"), but the
three outcomes remain mutually exclusive via `fallback_type`. -/
theorem C2_terminal_exclusive :
    ∀ (settings : Settings) (o : Oracle) (q : String) (n : ℕ),
      (run settings o n (initLoop q)).node = Node.terminal →
        ((run settings o n (initLoop q)).g.fallback_type = "" ∧
          (run settings o n (initLoop q)).g.max_iterations_reached = false ∧
          (run settings o n (initLoop q)).g.no_relevant_docs_fallback = false) ∨
        ((run settings o n (initLoop q)).g.fallback_type = "max_iterations" ∧
          (run settings o n (initLoop q)).g.max_iterations_reached = true ∧
          (run settings o n (initLoop q)).g.no_relevant_docs_fallback = false) ∨
        ((run settings o n (initLoop q)).g.fallback_type = "no_relevant_docs" ∧
          (run settings o n (initLoop q)).g.max_iterations_reached = true ∧
          (run settings o n (initLoop q)).g.no_relevant_docs_fallback = true) := by
  intro settings o q n
  induction n with
  | zero =>
    intro h
    simp [initLoop, run] at h
  | succ n ih =>
    rw [run_succ_outer]
    intro ht
    by_cases hterm : (run settings o n (initLoop q)).node = Node.terminal
    · rw [step_of_terminal settings o hterm] at ht ⊢
      exact ih ht
    · exact step_terminal_flags settings o _ hterm ht

/-- C2 witness: a concrete terminated run to which the terminal-exclusivity
theorem applies. -/
theorem C2_witness :
    (run {} emptyRetrievalOracle 9 (initLoop "q")).node = Node.terminal ∧
    (((run {} emptyRetrievalOracle 9 (initLoop "q")).g.fallback_type = "" ∧
      (run {} emptyRetrievalOracle 9 (initLoop "q")).g.max_iterations_reached = false ∧
      (run {} emptyRetrievalOracle 9 (initLoop "q")).g.no_relevant_docs_fallback = false) ∨
    ((run {} emptyRetrievalOracle 9 (initLoop "q")).g.fallback_type = "max_iterations" ∧
      (run {} emptyRetrievalOracle 9 (initLoop "q")).g.max_iterations_reached = true ∧
      (run {} emptyRetrievalOracle 9 (initLoop "q")).g.no_relevant_docs_fallback = false) ∨
    ((run {} emptyRetrievalOracle 9 (initLoop "q")).g.fallback_type = "no_relevant_docs" ∧
      (run {} emptyRetrievalOracle 9 (initLoop "q")).g.max_iterations_reached = true ∧
      (run {} emptyRetrievalOracle 9 (initLoop "q")).g.no_relevant_docs_fallback = true)) :=
  ⟨by decide, C2_terminal_exclusive {} emptyRetrievalOracle "q" 9 (by decide)⟩

/-- C2 counterexample: with the default budgets and always-empty retrieval
the loop terminates through the no-docs fallback, and the terminal state has
BOTH `max_iterations_reached` and `no_relevant_docs_fallback` true —
refuting "the two booleans are never both true in the terminal state". -/
theorem C2_counterexample :
    (run {} emptyRetrievalOracle 9 (initLoop "q")).node = Node.terminal ∧
    (run {} emptyRetrievalOracle 9 (initLoop "q")).g.max_iterations_reached = true ∧
    (run {} emptyRetrievalOracle 9 (initLoop "q")).g.no_relevant_docs_fallback = true := by
  exact ⟨by decide, by decide, by decide⟩

section OriginalQuestion

/-- No node of the graph ever changes `original_question`. -/
theorem step_preserves_original (settings : Settings) (o : Oracle) (ls : LoopState) :
    (step settings o ls).g.original_question = ls.g.original_question := by
  obtain ⟨g, node, lcq, lag⟩ := ls
  cases node <;> rfl

/-- Along any execution, `original_question` stays the initial question. -/
theorem run_preserves_original (settings : Settings) (o : Oracle) (q : String) (n : ℕ) :
    (run settings o n (initLoop q)).g.original_question = q := by
  induction n with
  | zero => rfl
  | succ n ih => rw [run_succ_outer, step_preserves_original]; exact ih

end OriginalQuestion

/-- C3 (amended): on every execution, whenever the `generate` node runs, the
question argument of its LLM call is the initial `original_question`; but
whenever the `no_docs_fallback` node runs, its LLM call receives the current
(possibly rewritten) `question` instead — the original claim's "including
the no-context generation" fails (see the counterexample). -/
theorem C3_generate_uses_original_question :
    ∀ (settings : Settings) (o : Oracle) (q : String) (n : ℕ),
      ((run settings o n (initLoop q)).node = Node.generate →
        (run settings o (n + 1) (initLoop q)).lastCallQuestion = some q) ∧
      ((run settings o n (initLoop q)).node = Node.no_docs_fallback →
        (run settings o (n + 1) (initLoop q)).lastCallQuestion =
          some (run settings o n (initLoop q)).g.question) := by
  intro settings o q n
  have horig := run_preserves_original settings o q n
  constructor
  · intro h
    rw [run_succ_outer]
    rcases hls : run settings o n (initLoop q) with ⟨g, node, lcq, lag⟩
    rw [hls] at h horig
    simp only [] at h horig
    subst h
    rw [step_generate]
    simp [generate_call, horig]
  · intro h
    rw [run_succ_outer]
    rcases hls : run settings o n (initLoop q) with ⟨g, node, lcq, lag⟩
    rw [hls] at h
    obtain rfl : node = Node.no_docs_fallback := h
    rw [step_no_docs_fallback]
    rfl

/-- C3 witness: a concrete run that rewrites once and then reaches
`generate`; the recorded LLM-call question is the original question. -/
theorem C3_witness :
    (run settingsThr1 rewriteThenSucceedOracle 5 (initLoop "q")).node = Node.generate ∧
    (run settingsThr1 rewriteThenSucceedOracle (5 + 1) (initLoop "q")).lastCallQuestion
      = some "q" :=
  ⟨by decide,
    (C3_generate_uses_original_question settingsThr1 rewriteThenSucceedOracle "q" 5).1
      (by decide)⟩

/-- C3 counterexample: an execution with two query rewrites that ends in the
no-docs fallback; the final answer-generating LLM call received the
rewritten question `"q!!"`, not the original `"q"`. -/
theorem C3_counterexample :
    (run {} rewritingEmptyOracle 9 (initLoop "q")).node = Node.terminal ∧
    (run {} rewritingEmptyOracle 9 (initLoop "q")).g.transform_attempts = 2 ∧
    (run {} rewritingEmptyOracle 9 (initLoop "q")).g.original_question = "q" ∧
    (run {} rewritingEmptyOracle 9 (initLoop "q")).lastCallQuestion = some "q!!" ∧
    (some "q!!" : Option String) ≠ some "q" :=
  ⟨by decide, by decide, by decide, by decide, by decide⟩

/-- C4: the post-generation decision checks the iteration budgets before
invoking any grader — whenever any budget is exhausted it returns the
`"max_iterations"` decision (routed to the `fallback` node) with neither
grader invoked; otherwise, on a not-grounded verdict it returns the
regenerate decision `"not supported"` unless `generation_attempts ≥
max_generation_retries`, in which case `"max_iterations"`, and the answer
grader is not invoked on that path. -/
theorem C4_budget_check_first :
    ∀ (settings : Settings) (is_grounded addresses_question : Bool) (s : GraphState),
      (check_iteration_limits settings s = true →
        grade_generation_v_documents_and_question settings is_grounded addresses_question s
            = ("max_iterations", ⟨false, false⟩) ∧
          route_from_generate "max_iterations" = Node.fallback) ∧
      (check_iteration_limits settings s = false → is_grounded = false →
        grade_generation_v_documents_and_question settings is_grounded addresses_question s
            = (if s.generation_attempts ≥ settings.max_generation_retries
                then "max_iterations" else "not supported", ⟨true, false⟩)) := by
  intro settings is_grounded addresses_question s
  constructor
  · intro h
    exact ⟨by simp [grade_generation_v_documents_and_question, h], rfl⟩
  · intro h hg
    subst hg
    simp only [grade_generation_v_documents_and_question, h, Bool.false_eq_true, if_false,
      ge_iff_le]
    split <;> rfl

/-- C4 witness: the budget-exhausted branch at a concrete state with
`transform_attempts` at its budget, and the not-grounded branch at the
initial state (all budgets unexhausted). -/
theorem C4_witness :
    (check_iteration_limits {} c10GraphState = true ∧
      grade_generation_v_documents_and_question {} false false c10GraphState
        = ("max_iterations", ⟨false, false⟩)) ∧
    (check_iteration_limits {} (initial_state "q") = false ∧
      grade_generation_v_documents_and_question {} false true (initial_state "q")
        = ("not supported", ⟨true, false⟩)) := by
  refine ⟨⟨by decide, ((C4_budget_check_first {} false false c10GraphState).1 (by decide)).1⟩,
    ⟨by decide, ?_⟩⟩
  have h := (C4_budget_check_first {} false true (initial_state "q")).2 (by decide) rfl
  simpa using h

/-- C5: `decide_to_generate` returns `"generate"` on a non-empty filtered
document list, `"transform_query"` on an empty list while transform retries
remain, and `"no_docs_fallback"` on an empty list with the transform budget
exhausted; consequently, with the default `max_transform_retries = 2` and
always-empty retrieval/grading, the loop performs exactly 2 transform
attempts and then takes the no-docs fallback path (no third attempt). -/
theorem C5_decide_to_generate :
    (∀ (settings : Settings) (s : GraphState),
      (s.documents ≠ [] → decide_to_generate settings s = "generate") ∧
      (s.documents = [] → s.transform_attempts < settings.max_transform_retries →
        decide_to_generate settings s = "transform_query") ∧
      (s.documents = [] → settings.max_transform_retries ≤ s.transform_attempts →
        decide_to_generate settings s = "no_docs_fallback")) ∧
    ((run {} emptyRetrievalOracle 8 (initLoop "q")).node = Node.no_docs_fallback ∧
      (run {} emptyRetrievalOracle 8 (initLoop "q")).g.transform_attempts = 2 ∧
      (run {} emptyRetrievalOracle 9 (initLoop "q")).node = Node.terminal ∧
      (run {} emptyRetrievalOracle 9 (initLoop "q")).g.fallback_type = "no_relevant_docs") := by
  constructor
  · intro settings s
    exact ⟨fun h => decide_to_generate_of_nonempty h,
      fun hd h => decide_to_generate_of_empty_lt hd h,
      fun hd h => decide_to_generate_of_empty_ge hd h⟩
  · exact ⟨by decide, by decide, by decide, by decide⟩

/-- C5 witness: the three branches of `decide_to_generate` instantiated at
concrete states. -/
theorem C5_witness :
    ((initial_state "q").documents = [] ∧
      (initial_state "q").transform_attempts < ({} : Settings).max_transform_retries ∧
      decide_to_generate {} (initial_state "q") = "transform_query") ∧
    (c10GraphState.documents ≠ [] ∧ decide_to_generate {} c10GraphState = "generate") ∧
    ((run {} emptyRetrievalOracle 8 (initLoop "q")).g.documents = [] ∧
      ({} : Settings).max_transform_retries ≤
        (run {} emptyRetrievalOracle 8 (initLoop "q")).g.transform_attempts ∧
      decide_to_generate {} (run {} emptyRetrievalOracle 8 (initLoop "q")).g
        = "no_docs_fallback") :=
  ⟨⟨rfl, by decide, (C5_decide_to_generate.1 {} (initial_state "q")).2.1 rfl (by decide)⟩,
   ⟨by decide, (C5_decide_to_generate.1 {} c10GraphState).1 (by decide)⟩,
   ⟨by decide, by decide,
    (C5_decide_to_generate.1 {} (run {} emptyRetrievalOracle 8 (initLoop "q")).g).2.2
      (by decide) (by decide)⟩⟩

section HallucinationBatching

/-- Characterization of the batch loop of `grade_hallucination`: the verdict
is true iff some batch scores grounded, and the number of grader invocations
is the position of the first grounded batch plus one (batches after it are
never invoked; raised calls count as invocations and are skipped), or the
number of batches when none scores grounded. -/
theorem grade_hallucination_go_spec (verdict : String → BatchVerdict) :
    ∀ (l : List (List String)),
      grade_hallucination_go verdict l
        = (l.any (fun b => isYes (verdict (format_docs b))),
           if l.any (fun b => isYes (verdict (format_docs b)))
            then l.findIdx (fun b => isYes (verdict (format_docs b))) + 1
            else l.length) := by
  intro l
  induction l with
  | nil => rfl
  | cons b rest ih =>
    simp only [grade_hallucination_go]
    cases hv : verdict (format_docs b) with
    | raised =>
      rw [ih]
      simp [List.any_cons, List.findIdx_cons, isYes, hv]
      split <;> simp
    | score s =>
      by_cases hy : str_lower s == "yes"
      · simp [hy, List.any_cons, List.findIdx_cons, isYes, hv]
      · simp only [hy, if_neg]
        rw [ih]
        simp [List.any_cons, List.findIdx_cons, isYes, hv, hy]
        split <;> simp

end HallucinationBatching

/-- C6: the hallucination grader splits the documents into
`hallucination_batch_size`-sized batches and checks them in order; it is
grounded exactly when some batch's check scores `"yes"`, it stops at the
first such batch (making exactly first-index-plus-one grader calls, so no
call on any later batch), a batch whose call raises is skipped (counting as
one call) and checking continues, and it returns not-grounded only when no
batch scored grounded (in which case every batch was invoked). -/
theorem C6_hallucination_batching :
    ∀ (batch_size : ℕ) (verdict : String → BatchVerdict) (docs : List String),
      0 < batch_size →
      (grade_hallucination batch_size verdict docs).1
          = (toBatches batch_size docs).any (fun b => isYes (verdict (format_docs b))) ∧
      (grade_hallucination batch_size verdict docs).2
          = (if (toBatches batch_size docs).any (fun b => isYes (verdict (format_docs b)))
              then (toBatches batch_size docs).findIdx
                  (fun b => isYes (verdict (format_docs b))) + 1
              else (toBatches batch_size docs).length) := by
  intro batch_size verdict docs hbs
  unfold grade_hallucination
  by_cases hd : docs.isEmpty
  · have hnil : docs = [] := by simpa using hd
    subst hnil
    have hb : toBatches batch_size [] = [] := by
      unfold toBatches
      rw [if_neg (by omega)]
      simp [Nat.div_eq_of_lt (by omega : batch_size - 1 < batch_size)]
    rw [hb]
    simp
  · have hd' : docs.isEmpty = false := by simpa using hd
    rw [hd']
    rw [grade_hallucination_go_spec]
    exact ⟨rfl, rfl⟩

/-- C6 witness: batch size 3 over seven documents (three batches); the
first batch's call raises and is skipped, the second scores grounded, and
the grader stops after two calls — the third batch is never invoked. -/
theorem C6_witness :
    (0 < 3 ∧
      ((grade_hallucination 3 c6Verdict c6Docs).1
          = (toBatches 3 c6Docs).any (fun b => isYes (c6Verdict (format_docs b))) ∧
        (grade_hallucination 3 c6Verdict c6Docs).2
          = (if (toBatches 3 c6Docs).any (fun b => isYes (c6Verdict (format_docs b)))
              then (toBatches 3 c6Docs).findIdx
                  (fun b => isYes (c6Verdict (format_docs b))) + 1
              else (toBatches 3 c6Docs).length))) ∧
    grade_hallucination 3 c6Verdict c6Docs = (true, 2) ∧
    (toBatches 3 c6Docs).length = 3 :=
  ⟨⟨by decide, C6_hallucination_batching 3 c6Verdict c6Docs (by decide)⟩,
    by decide, by decide⟩

section DocumentFilter

/-- A successfully graded relevant document above the threshold is kept. -/
theorem gdf_cons_kept (threshold : ℚ) (d g r : String) (c : ℚ)
    (rest : List (String × GradeOutcome))
    (hb : (g == "yes" && decide (threshold ≤ c)) = true) :
    grade_documents_filter threshold ((d, GradeOutcome.success g c r) :: rest)
      = d :: grade_documents_filter threshold rest := by
  simp [grade_documents_filter, List.filterMap_cons, grade_single_doc, hb]

/-- A successfully graded document that is not relevant-above-threshold is
dropped. -/
theorem gdf_cons_dropped (threshold : ℚ) (d g r : String) (c : ℚ)
    (rest : List (String × GradeOutcome))
    (hb : (g == "yes" && decide (threshold ≤ c)) = false) :
    grade_documents_filter threshold ((d, GradeOutcome.success g c r) :: rest)
      = grade_documents_filter threshold rest := by
  simp [grade_documents_filter, List.filterMap_cons, grade_single_doc, hb]

/-- A document whose grading raised is dropped, and the filter continues
over the remaining documents (the error never propagates). -/
theorem gdf_cons_error (threshold : ℚ) (d msg : String)
    (rest : List (String × GradeOutcome)) :
    grade_documents_filter threshold ((d, GradeOutcome.error msg) :: rest)
      = grade_documents_filter threshold rest := by
  simp [grade_documents_filter, List.filterMap_cons, grade_single_doc]

end DocumentFilter

/-- C7: the document grader keeps exactly the documents whose verdict is
`"yes"` with confidence ≥ the threshold; a document whose grading errored
(after retries) is excluded without aborting the grading of the remaining
documents (`grade_documents_filter` is total and simply skips it).  At
threshold 0.6, a `(yes, 0.59)` document is dropped, a `(yes, 0.60)`
document is kept, and an errored document is dropped. -/
theorem C7_document_confidence_gate :
    (∀ (threshold : ℚ) (graded : List (String × GradeOutcome)),
      grade_documents_filter threshold graded
        = (graded.filter fun p =>
            match p.2 with
            | .success g c _ => g == "yes" && decide (threshold ≤ c)
            | .error _ => false).map Prod.fst) ∧
    grade_documents_filter (6/10)
        [("a", .success "yes" (59/100) "r1"), ("b", .success "yes" (60/100) "r2"),
         ("c", .error "boom")] = ["b"] := by
  constructor
  · intro threshold graded
    induction graded with
    | nil => rfl
    | cons p rest ih =>
      obtain ⟨d, oc⟩ := p
      cases oc with
      | success g c r =>
        by_cases hb : (g == "yes" && decide (threshold ≤ c)) = true
        · rw [gdf_cons_kept threshold d g r c rest hb, ih, List.filter_cons]
          simp [hb]
        · have hb' : (g == "yes" && decide (threshold ≤ c)) = false := by
            simpa using hb
          rw [gdf_cons_dropped threshold d g r c rest hb', ih, List.filter_cons]
          simp [hb']
      | error msg =>
        rw [gdf_cons_error threshold d msg rest, ih, List.filter_cons]
        simp
  · have h1 : (decide ((6:ℚ)/10 ≤ 59/100)) = false := by norm_num
    have h2 : (decide ((6:ℚ)/10 ≤ 60/100)) = true := by norm_num
    simp [grade_documents_filter, grade_single_doc, List.filterMap_cons, h1, h2]

/-- C8 (amended): each of retrieve, grade_documents, generate,
transform_query and no_docs_fallback increments `total_iterations` by
exactly 1 — but the `fallback` node (`mark_max_iterations`) leaves
`total_iterations` unchanged, contrary to the claim's inclusion of
"fallback" in the list of incrementing nodes. -/
theorem C8_iteration_increments :
    ∀ (retrieved filtered : List String)
      (generation better_question fallback_generation : String) (s : GraphState),
      (retrieve_update retrieved s).total_iterations = s.total_iterations + 1 ∧
      (grade_documents_update filtered s).total_iterations = s.total_iterations + 1 ∧
      (generate_update generation s).total_iterations = s.total_iterations + 1 ∧
      (transform_query_update better_question s).total_iterations = s.total_iterations + 1 ∧
      (generate_no_docs_fallback_update fallback_generation s).total_iterations
        = s.total_iterations + 1 ∧
      (mark_max_iterations s).total_iterations = s.total_iterations := by
  intro retrieved filtered generation better_question fallback_generation s
  exact ⟨rfl, rfl, rfl, rfl, rfl, rfl⟩

/-- C8 counterexample: executing the `fallback` node (`mark_max_iterations`)
does not increase `total_iterations` — refuting the claim that every listed
node execution increments it by exactly 1. -/
theorem C8_counterexample :
    (mark_max_iterations (initial_state "q")).total_iterations
        = (initial_state "q").total_iterations ∧
    ¬ ((mark_max_iterations (initial_state "q")).total_iterations
        = (initial_state "q").total_iterations + 1) := by
  exact ⟨rfl, by decide⟩

/-- C9 (amended): the Answer Relevance Grader grades the generation against
the state's current `question` field — after a query rewrite that is the
rewritten question, not `original_question` (which is preserved but unused
by `AnswerGrader.prepare_input`). -/
theorem C9_answer_grader_current_question :
    ∀ (s : GraphState) (better_question generation : String),
      (AnswerGrader.prepare_input
          (generate_update generation (transform_query_update better_question s))).1
        = better_question ∧
      (generate_update generation (transform_query_update better_question s)).original_question
        = s.original_question := by
  intro s better_question generation
  exact ⟨rfl, rfl⟩

/-- C9 counterexample: a run that rewrites the question to `"rw"` and then
generates; the answer grader's recorded input question is `"rw"`, not the
original question `"q"` — refuting "the question it grades against is
original_question on every execution". -/
theorem C9_counterexample :
    (run settingsThr1 rewriteThenSucceedOracle 6 (initLoop "q")).node = Node.terminal ∧
    (run settingsThr1 rewriteThenSucceedOracle 6 (initLoop "q")).g.transform_attempts = 1 ∧
    (run settingsThr1 rewriteThenSucceedOracle 6 (initLoop "q")).g.original_question = "q" ∧
    (run settingsThr1 rewriteThenSucceedOracle 6 (initLoop "q")).lastAnswerGraderInput
      = some ("rw", "answer") ∧
    ("rw" : String) ≠ "q" :=
  ⟨by decide, by decide, by decide, by decide, by decide⟩

/-- C10 (amended): when the post-generate state has `transform_attempts ≥
max_transform_retries` — in particular in the claim's scenario of a
grounded answer graded as not addressing the question with the transform
budget exhausted — the budget check fires first: the decision is
`"max_iterations"`, the loop goes to the `fallback` node (NOT directly to
`END` as an unflagged success), and the terminal state has
`max_iterations_reached = true`, `fallback_type = "max_iterations"` and the
verification disclaimer.  The accept-as-is arm inside
`grade_generation_v_documents_and_question` (grounded, not addressing,
budget exhausted → `"useful"`) is unreachable, because
`check_iteration_limits` tests the same condition earlier. -/
theorem C10_exhausted_transform_goes_fallback :
    (∀ (settings : Settings) (o : Oracle) (ls : LoopState),
      ls.node = Node.generate →
      settings.max_transform_retries ≤
        (generate_update (o.generated ls.g.total_iterations) ls.g).transform_attempts →
      (step settings o ls).node = Node.fallback ∧
      (run settings o 2 ls).node = Node.terminal ∧
      (run settings o 2 ls).g.max_iterations_reached = true ∧
      (run settings o 2 ls).g.no_relevant_docs_fallback = false ∧
      (run settings o 2 ls).g.fallback_type = "max_iterations" ∧
      _get_disclaimer_text (run settings o 2 ls).g
        = some "Diese Antwort konnte nicht vollständig verifiziert werden.") ∧
    (∀ (settings : Settings) (is_grounded addresses_question : Bool) (s : GraphState),
      settings.max_transform_retries ≤ s.transform_attempts →
      (grade_generation_v_documents_and_question settings is_grounded addresses_question s).1
        = "max_iterations") := by
  constructor
  · intro settings o ls hnode hta
    rcases hls : ls with ⟨g, node, lcq, lag⟩
    rw [hls] at hnode hta
    obtain rfl : node = Node.generate := hnode
    have hchk : check_iteration_limits settings
        (generate_update (o.generated g.total_iterations) g) = true := by
      simp only [check_iteration_limits, Bool.or_eq_true, decide_eq_true_eq]
      exact Or.inl (Or.inr hta)
    have hdec : grade_generation_v_documents_and_question settings
        (o.grounded (generate_update (o.generated g.total_iterations) g).total_iterations)
        (o.addresses (generate_update (o.generated g.total_iterations) g).total_iterations)
        (generate_update (o.generated g.total_iterations) g)
        = ("max_iterations", ⟨false, false⟩) := by
      simp [grade_generation_v_documents_and_question, hchk]
    have hstep : step settings o ⟨g, Node.generate, lcq, lag⟩ =
        ⟨generate_update (o.generated g.total_iterations) g, Node.fallback,
          some (generate_call g).question, lag⟩ := by
      rw [step_generate]
      simp only [hdec]
      rfl
    have hrun : run settings o 2 (⟨g, Node.generate, lcq, lag⟩ : LoopState) =
        ⟨mark_max_iterations (generate_update (o.generated g.total_iterations) g),
          Node.terminal, some (generate_call g).question, lag⟩ := by
      rw [show run settings o 2 (⟨g, Node.generate, lcq, lag⟩ : LoopState)
          = step settings o (step settings o ⟨g, Node.generate, lcq, lag⟩) from rfl]
      rw [hstep, step_fallback]
    exact ⟨by rw [hstep], by rw [hrun], by rw [hrun]; rfl, by rw [hrun]; rfl,
      by rw [hrun]; rfl, by rw [hrun]; rfl⟩
  · intro settings is_grounded addresses_question s hta
    have hchk : check_iteration_limits settings s = true := by
      simp only [check_iteration_limits, Bool.or_eq_true, decide_eq_true_eq]
      exact Or.inl (Or.inr hta)
    simp [grade_generation_v_documents_and_question, hchk]

/-- C10 witness: a concrete generate-node state with the transform budget
exhausted, routed to `fallback` and terminating with the max-iterations
disclaimer. -/
theorem C10_witness :
    (c10LoopState.node = Node.generate ∧
      ({} : Settings).max_transform_retries ≤
        (generate_update (groundedNotAddressingOracle.generated
          c10LoopState.g.total_iterations) c10LoopState.g).transform_attempts) ∧
    ((step {} groundedNotAddressingOracle c10LoopState).node = Node.fallback ∧
      (run {} groundedNotAddressingOracle 2 c10LoopState).node = Node.terminal ∧
      (run {} groundedNotAddressingOracle 2 c10LoopState).g.max_iterations_reached = true ∧
      (run {} groundedNotAddressingOracle 2 c10LoopState).g.no_relevant_docs_fallback = false ∧
      (run {} groundedNotAddressingOracle 2 c10LoopState).g.fallback_type = "max_iterations" ∧
      _get_disclaimer_text (run {} groundedNotAddressingOracle 2 c10LoopState).g
        = some "Diese Antwort konnte nicht vollständig verifiziert werden.") :=
  ⟨⟨by decide, by decide⟩,
    (C10_exhausted_transform_goes_fallback.1 {} groundedNotAddressingOracle c10LoopState
      (by decide) (by decide))⟩

/-- C10 counterexample: at a concrete state satisfying the claim's premise
(grounded, does not address the question, transform budget exhausted), the
decision is `"max_iterations"` routed to the `fallback` node — not a direct
`END` — and the terminal state carries `max_iterations_reached = true` and
a disclaimer, refuting every conclusion of the claim. -/
theorem C10_counterexample :
    (grade_generation_v_documents_and_question {} true false c10GraphState).1
        = "max_iterations" ∧
    route_from_generate "max_iterations" = Node.fallback ∧
    ¬ ((step {} groundedNotAddressingOracle c10LoopState).node = Node.terminal) ∧
    (run {} groundedNotAddressingOracle 2 c10LoopState).g.max_iterations_reached = true ∧
    _get_disclaimer_text (run {} groundedNotAddressingOracle 2 c10LoopState).g ≠ none :=
  ⟨by decide, rfl, by decide, by decide, by decide⟩

end BiBorBA
